import Mathlib

/-!
Verification development for the waifuVault rust API client.

The development shallowly embeds the two decision-bearing parts of the
client:

* the response-envelope dispatcher (`api.rs`: the serde-untagged enum
  `WaifuApiResponse` and its member structures, modelled by explicit
  deserializer functions tried in the declaration order of the enum), and
* the request-payload builder (`lib.rs`: the body/query/path construction
  of `upload_file`, the serde serialization of `WaifuModificationRequest`,
  the status dispatch of `download_file`, and the simple bodies and query
  strings of the bucket and album endpoints).

JSON values are modelled by the inductive `Json`; JSON numbers are
modelled as integers, which covers every field the client reads (all are
unsigned machine integers on the rust side; no claim involves fractional
numbers).  Serde field semantics are reproduced explicitly: a required
field must be present and well typed, an `Option` field is `none` when
absent or `null` and must parse otherwise, and unknown fields are ignored
(none of the structures opts into `deny_unknown_fields`).
-/

namespace WaifuVault

/-- Model of a `serde_json::Value`.  Numbers are modelled as integers. -/
inductive Json where
  | null
  | bool (b : Bool)
  | num (n : Int)
  | str (s : String)
  | arr (elems : List Json)
  | obj (fields : List (String × Json))

/-- Look a key up in a JSON object, first occurrence wins. -/
def getField : List (String × Json) → String → Option Json
  | [], _ => none
  | (k, v) :: rest, key => if k == key then some v else getField rest key

/-- Deserialize a JSON string. -/
def deStr : Json → Option String
  | .str s => some s
  | _ => none

/-- Deserialize a JSON boolean. -/
def deBool : Json → Option Bool
  | .bool b => some b
  | _ => none

/-- Deserialize a `u16` (used for the HTTP status of `WaifuError`). -/
def deU16 : Json → Option Nat
  | .num n => if 0 ≤ n ∧ n < 65536 then some n.toNat else none
  | _ => none

/-- Deserialize a 64-bit unsigned integer (`usize` / `u64` fields). -/
def deU64 : Json → Option Nat
  | .num n => if 0 ≤ n ∧ n < (2 : Int) ^ 64 then some n.toNat else none
  | _ => none

/-- A required struct field: must be present and must deserialize. -/
def reqField (fields : List (String × Json)) (key : String)
    (de : Json → Option α) : Option α :=
  match getField fields key with
  | some v => de v
  | none => none

/-- An `Option` struct field: absent or `null` gives `none`; a present
non-null value must deserialize. -/
def optField (fields : List (String × Json)) (key : String)
    (de : Json → Option α) : Option (Option α) :=
  match getField fields key with
  | none => some none
  | some .null => some none
  | some v =>
    match de v with
    | some a => some (some a)
    | none => none

/-- Deserialize every element of a list, failing if any element fails. -/
def deAll (de : Json → Option α) : List Json → Option (List α)
  | [] => some []
  | x :: rest =>
    match de x, deAll de rest with
    | some a, some tail => some (a :: tail)
    | _, _ => none

/-- `api.rs` `WaifuFileOptions`: the three per-file booleans. -/
structure WaifuFileOptions where
  hide_filename : Bool
  one_time_download : Bool
  «protected» : Bool

/-- `api.rs` `WaifuAlbumMetadata`: the album cross-reference embedded in a
file entry. -/
structure WaifuAlbumMetadata where
  token : String
  public_token : Option String
  name : String
  bucket : String
  date_created : Nat

/-- `api.rs` `WaifuFileEntry`: the standard per-file response record.  The
`retention_period` field is a raw `serde_json::Value` in the source and
stays a raw `Json` here. -/
structure WaifuFileEntry where
  token : String
  url : String
  bucket : Option String
  album : Option WaifuAlbumMetadata
  views : Nat
  retention_period : Json
  options : Option WaifuFileOptions

/-- `api.rs` `WaifuBucketEntry`. -/
structure WaifuBucketEntry where
  token : String
  files : List WaifuFileEntry
  albums : Option (List WaifuAlbumMetadata)

/-- `api.rs` `WaifuAlbumEntry`. -/
structure WaifuAlbumEntry where
  token : String
  bucket_token : String
  public_token : Option String
  name : String
  files : List WaifuFileEntry

/-- `api.rs` `WaifuGenericMessage`. -/
structure WaifuGenericMessage where
  success : Bool
  description : String

/-- `api.rs` `WaifuError`: the service error envelope. -/
structure WaifuError where
  name : String
  message : String
  status : Nat

/-- Deserializer for `WaifuFileOptions` (serde rename: `hideFilename`,
`oneTimeDownload`). -/
def deFileOptions : Json → Option WaifuFileOptions
  | .obj fields =>
    match reqField fields "hideFilename" deBool,
          reqField fields "oneTimeDownload" deBool,
          reqField fields "protected" deBool with
    | some h, some o, some p => some ⟨h, o, p⟩
    | _, _, _ => none
  | _ => none

/-- Deserializer for `WaifuAlbumMetadata` (serde rename: `publicToken`,
`dateCreated`). -/
def deAlbumMetadata : Json → Option WaifuAlbumMetadata
  | .obj fields =>
    match reqField fields "token" deStr,
          optField fields "publicToken" deStr,
          reqField fields "name" deStr,
          reqField fields "bucket" deStr,
          reqField fields "dateCreated" deU64 with
    | some t, some pt, some n, some b, some d => some ⟨t, pt, n, b, d⟩
    | _, _, _, _, _ => none
  | _ => none

/-- Deserializer for `WaifuFileEntry` (serde rename: `retentionPeriod`,
which is kept as a raw value). -/
def deFileEntry : Json → Option WaifuFileEntry
  | .obj fields =>
    match reqField fields "token" deStr,
          reqField fields "url" deStr,
          optField fields "bucket" deStr,
          optField fields "album" deAlbumMetadata,
          reqField fields "views" deU64,
          getField fields "retentionPeriod",
          optField fields "options" deFileOptions with
    | some t, some u, some b, some al, some v, some rp, some op =>
      some ⟨t, u, b, al, v, rp, op⟩
    | _, _, _, _, _, _, _ => none
  | _ => none

/-- Deserializer for a JSON array of file entries. -/
def deFileList : Json → Option (List WaifuFileEntry)
  | .arr elems => deAll deFileEntry elems
  | _ => none

/-- Deserializer for a JSON array of album metadata records. -/
def deMetadataList : Json → Option (List WaifuAlbumMetadata)
  | .arr elems => deAll deAlbumMetadata elems
  | _ => none

/-- Deserializer for `WaifuBucketEntry`. -/
def deBucketEntry : Json → Option WaifuBucketEntry
  | .obj fields =>
    match reqField fields "token" deStr,
          reqField fields "files" deFileList,
          optField fields "albums" deMetadataList with
    | some t, some fs, some al => some ⟨t, fs, al⟩
    | _, _, _ => none
  | _ => none

/-- Deserializer for `WaifuAlbumEntry` (serde rename: `bucketToken`,
`publicToken`).  Note that `name` is a required field. -/
def deAlbumEntry : Json → Option WaifuAlbumEntry
  | .obj fields =>
    match reqField fields "token" deStr,
          reqField fields "bucketToken" deStr,
          optField fields "publicToken" deStr,
          reqField fields "name" deStr,
          reqField fields "files" deFileList with
    | some t, some bt, some pt, some n, some fs => some ⟨t, bt, pt, n, fs⟩
    | _, _, _, _, _ => none
  | _ => none

/-- Deserializer for `WaifuGenericMessage`. -/
def deGenericMessage : Json → Option WaifuGenericMessage
  | .obj fields =>
    match reqField fields "success" deBool,
          reqField fields "description" deStr with
    | some s, some d => some ⟨s, d⟩
    | _, _ => none
  | _ => none

/-- Deserializer for `WaifuError`. -/
def deWaifuError : Json → Option WaifuError
  | .obj fields =>
    match reqField fields "name" deStr,
          reqField fields "message" deStr,
          reqField fields "status" deU16 with
    | some n, some m, some s => some ⟨n, m, s⟩
    | _, _, _ => none
  | _ => none

/-- `api.rs` `WaifuApiResponse`: the untagged response envelope. -/
inductive WaifuApiResponse where
  | WaifuFileResponse (entry : WaifuFileEntry)
  | WaifuAlbumResponse (entry : WaifuAlbumEntry)
  | WaifuBucketResponse (entry : WaifuBucketEntry)
  | WaifuGenericResponse (msg : WaifuGenericMessage)
  | WaifuError (err : WaifuError)
  | Delete (success : Bool)

/-- The serde-untagged dispatch of `WaifuApiResponse`: each variant is
tried in the declaration order of the enum (file, album, bucket, generic,
error, bare boolean) and the first one that deserializes wins. -/
def deApiResponse (j : Json) : Option WaifuApiResponse :=
  match deFileEntry j with
  | some r => some (.WaifuFileResponse r)
  | none =>
  match deAlbumEntry j with
  | some r => some (.WaifuAlbumResponse r)
  | none =>
  match deBucketEntry j with
  | some r => some (.WaifuBucketResponse r)
  | none =>
  match deGenericMessage j with
  | some r => some (.WaifuGenericResponse r)
  | none =>
  match deWaifuError j with
  | some r => some (.WaifuError r)
  | none =>
  match j with
  | .bool b => some (.Delete b)
  | _ => none

/-- `lib.rs` `API`: the REST endpoint base (the non-test value). -/
def API : String := "https://waifuvault.moe/rest"

/-- `api.rs` `WaifuUploadRequest`: the upload builder input.  Raw bytes
are modelled as a list of naturals. -/
structure WaifuUploadRequest where
  file : Option String
  url : Option String
  bytes : Option (List Nat)
  bucket : Option String
  filename : Option String
  expires : Option String
  hide_filename : Bool
  password : Option String
  one_time_download : Bool

/-- `WaifuUploadRequest::new()`: all options unset, both flags false. -/
def WaifuUploadRequest.new : WaifuUploadRequest :=
  ⟨none, none, none, none, none, none, false, none, false⟩

/-- One fluent builder-method call on a `WaifuUploadRequest`, one
constructor per public setter of the rust impl block. -/
inductive BuilderCall where
  | file (path : String)
  | url (u : String)
  | bytes (raw : List Nat) (filename : String)
  | bucket (token : String)
  | expires (e : String)
  | hide_filename (hide : Bool)
  | password (p : String)
  | one_time_download (otd : Bool)

/-- The effect of a single builder call, mirroring the rust setters.
`bytes` is the only call touching the `bytes` or `filename` field, and it
sets both. -/
def applyCall (r : WaifuUploadRequest) : BuilderCall → WaifuUploadRequest
  | .file p => { r with file := some p }
  | .url u => { r with url := some u }
  | .bytes raw fn => { r with bytes := some raw, filename := some fn }
  | .bucket t => { r with bucket := some t }
  | .expires e => { r with expires := some e }
  | .hide_filename h => { r with hide_filename := h }
  | .password p => { r with password := some p }
  | .one_time_download o => { r with one_time_download := o }

/-- A finite sequence of builder calls applied left to right. -/
def applyCalls (r : WaifuUploadRequest) (calls : List BuilderCall) :
    WaifuUploadRequest :=
  calls.foldl applyCall r

/-- One part of a reqwest multipart form: either a named file part with a
filename and byte content, or a named text part. -/
inductive MultipartPart where
  | filePart (name : String) (filename : String) (content : List Nat)
  | textPart (name : String) (content : String)

/-- The body of an upload request: multipart form or url-encoded form. -/
inductive UploadBody where
  | multipart (parts : List MultipartPart)
  | form (fields : List (String × String))

/-- The transport-level rendering of an upload call: path, query string
and body. -/
structure RenderedUpload where
  path : String
  query : List (String × String)
  body : UploadBody

/-- How reqwest serializes a boolean query value. -/
def boolStr (b : Bool) : String := if b then "true" else "false"

/-- `upload_file` url construction: the path is prefixed with the bucket
token when one is present. -/
def uploadPath (r : WaifuUploadRequest) : String :=
  match r.bucket with
  | some b => API ++ "/" ++ b
  | none => API

/-- `upload_file` query construction: `hide_filename` and
`oneTimeDownload` always, then `expires` only when set. -/
def uploadQuery (r : WaifuUploadRequest) : List (String × String) :=
  [("hide_filename", boolStr r.hide_filename),
   ("oneTimeDownload", boolStr r.one_time_download)] ++
  (match r.expires with
   | some e => [("expires", e)]
   | none => [])

/-- Append the optional `password` text part to a multipart form, as both
multipart branches of `upload_file` do. -/
def withPasswordPart (password : Option String)
    (parts : List MultipartPart) : List MultipartPart :=
  match password with
  | some p => parts ++ [.textPart "password" p]
  | none => parts

/-- The form fields of the remote-url branch of `upload_file`. -/
def urlFormFields (u : String) (password : Option String) :
    List (String × String) :=
  match password with
  | some p => [("url", u), ("password", p)]
  | none => [("url", u)]

/-- Scan of a character list keeping the component after the last slash. -/
def fileNameAux : List Char → List Char → List Char
  | [], acc => acc.reverse
  | c :: rest, acc =>
    if c == '/' then fileNameAux rest [] else fileNameAux rest (c :: acc)

/-- `Path::file_name` for the ordinary paths the client deals with: the
last slash-separated component. -/
def fileNameOfPath (p : String) : String :=
  ⟨fileNameAux p.data []⟩

/-- The request-construction phase of `upload_file` (`lib.rs` lines
539-593), everything that happens before the transport `send()`.  The
filesystem is passed in as a lookup from a path to optional byte content;
a failed read is the local `reading file ...` error.  The branch
structure is the if/else-if chain of the source: `file` first, then
`url`, then `bytes` together with `filename`, and otherwise the local
build error `need either a file, url, or stream`. -/
def buildUpload (fs : String → Option (List Nat))
    (r : WaifuUploadRequest) : Except String RenderedUpload :=
  match r.file with
  | some f =>
    match fs f with
    | none => .error ("reading file " ++ f)
    | some content =>
      .ok ⟨uploadPath r, uploadQuery r,
        .multipart (withPasswordPart r.password
          [.filePart "file" (fileNameOfPath f) content])⟩
  | none =>
  match r.url with
  | some u =>
    .ok ⟨uploadPath r, uploadQuery r, .form (urlFormFields u r.password)⟩
  | none =>
  match r.bytes, r.filename with
  | some raw, some fn =>
    .ok ⟨uploadPath r, uploadQuery r,
      .multipart (withPasswordPart r.password
        [.filePart "file" fn raw])⟩
  | _, _ => .error "need either a file, url, or stream"

/-- How many content sources an upload request has set. -/
def sourceCount (r : WaifuUploadRequest) : Nat :=
  (if r.file.isSome then 1 else 0) +
  (if r.url.isSome then 1 else 0) +
  (if r.bytes.isSome then 1 else 0)

/-- `api.rs` `WaifuModificationRequest`: the modification builder input. -/
structure WaifuModificationRequest where
  token : String
  password : Option String
  previous_password : Option String
  custom_expiry : Option String
  hide_filename : Option Bool

/-- `WaifuModificationRequest::new(token)`: every optional field unset. -/
def WaifuModificationRequest.new (token : String) :
    WaifuModificationRequest :=
  ⟨token, none, none, none, none⟩

/-- One fluent builder-method call on a `WaifuModificationRequest`. -/
inductive ModificationCall where
  | password (p : String)
  | previous_password (p : String)
  | custom_expiry (e : String)
  | hide_filename (hide : Bool)

/-- The effect of a single modification builder call. -/
def applyModCall (r : WaifuModificationRequest) :
    ModificationCall → WaifuModificationRequest
  | .password p => { r with password := some p }
  | .previous_password p => { r with previous_password := some p }
  | .custom_expiry e => { r with custom_expiry := some e }
  | .hide_filename h => { r with hide_filename := some h }

/-- The serde serialization of `WaifuModificationRequest`: `token` is
skipped, every `Option` field is skipped when `none`, and the wire names
are the serde renames `previousPassword`, `customExpiry`,
`hideFilename`. -/
def serializeModification (r : WaifuModificationRequest) :
    List (String × Json) :=
  (match r.password with
   | some p => [("password", Json.str p)]
   | none => []) ++
  (match r.previous_password with
   | some p => [("previousPassword", Json.str p)]
   | none => []) ++
  (match r.custom_expiry with
   | some e => [("customExpiry", Json.str e)]
   | none => []) ++
  (match r.hide_filename with
   | some b => [("hideFilename", Json.bool b)]
   | none => [])

/-- Outcome of `parse_response` (`lib.rs` lines 1189-1195).  The wildcard
arm of the source is `unreachable!("unused")`, a panic, modelled by the
`panic` constructor. -/
inductive ParseOutcome where
  | ok (entry : WaifuFileEntry)
  | err (e : WaifuError)
  | panic

/-- `lib.rs` `parse_response`: a file entry is returned, a service error
is propagated, and every other variant hits `unreachable!`. -/
def parse_response : WaifuApiResponse → ParseOutcome
  | .WaifuFileResponse r => .ok r
  | .WaifuError e => .err e
  | _ => .panic

/-- Outcome of the endpoint-side match in `create_bucket`, `get_bucket`,
`create_album` and the other endpoints that match inline: the expected
entry, a propagated service error, or an `anyhow::bail!` for an
unexpected variant. -/
inductive EndpointOutcome (α : Type) where
  | ok (a : α)
  | err (e : WaifuError)
  | unexpectedResponse

/-- The response match of `create_bucket` (`lib.rs` lines 435-439): a
bucket entry is returned, a service error is propagated, any other
variant gives the `unexpected response` bail. -/
def createBucketDispatch : WaifuApiResponse →
    EndpointOutcome WaifuBucketEntry
  | .WaifuBucketResponse r => .ok r
  | .WaifuError e => .err e
  | _ => .unexpectedResponse

/-- Outcome of the status dispatch inside `download_file` (`lib.rs` lines
770-787).  `content` is the 200 path that goes on to return the raw
bytes; `passwordIncorrect` and `passwordRequired` are the two 403 bails;
`serviceError` is a parsed error envelope on any other status;
`convertFailed` is the `converting error` context when the body does not
parse as the envelope; `somethingWentWrong` is the bail on a non-error
envelope variant. -/
inductive DownloadOutcome where
  | content
  | passwordIncorrect
  | passwordRequired
  | serviceError (e : WaifuError)
  | convertFailed
  | somethingWentWrong

/-- The status dispatch of `download_file`: 200 falls through to the
content read; 403 is split on whether a password was supplied, without
looking at the body; any other status parses the body as the envelope
and propagates a `WaifuError`. -/
def downloadDispatch (status : Nat) (password : Option String)
    (body : Json) : DownloadOutcome :=
  if status = 200 then .content
  else if status = 403 then
    if password.isSome then .passwordIncorrect else .passwordRequired
  else
    match deApiResponse body with
    | some (.WaifuError e) => .serviceError e
    | some _ => .somethingWentWrong
    | none => .convertFailed

/-- The JSON body of `get_bucket` (`lib.rs` lines 492-493): a single-key
map, with the snake_case key `bucket_token`. -/
def getBucketBody (token : String) : List (String × Json) :=
  [("bucket_token", Json.str token)]

/-- The JSON body of `associate_with_album` and
`disassociate_from_album`: a single-key map with key `fileTokens`. -/
def associateBody (fileTokens : List String) : List (String × Json) :=
  [("fileTokens", Json.arr (fileTokens.map Json.str))]

/-- The query string of `delete_album`: the single pair `deleteFiles`. -/
def deleteAlbumQuery (deleteFiles : Bool) : List (String × String) :=
  [("deleteFiles", boolStr deleteFiles)]

/-- The JSON body of `create_album`: a single-key map with key `name`. -/
def createAlbumBody (albumName : String) : List (String × Json) :=
  [("name", Json.str albumName)]

/-! Helper lemmas shared by the claim theorems. -/

/-- A successful `buildUpload` always carries the path of `uploadPath`
and the query of `uploadQuery`, whichever content branch was taken. -/
theorem buildUpload_ok_shape (fs : String → Option (List Nat))
    (r : WaifuUploadRequest) (out : RenderedUpload)
    (h : buildUpload fs r = .ok out) :
    out.path = uploadPath r ∧ out.query = uploadQuery r := by
  unfold buildUpload at h
  split at h
  · split at h
    · simp at h
    · cases h
      exact ⟨rfl, rfl⟩
  · split at h
    · cases h
      exact ⟨rfl, rfl⟩
    · split at h
      · cases h
        exact ⟨rfl, rfl⟩
      · simp at h

/-- Field-by-field characterization of the serde serialization of a
modification request: looking a wire name up gives exactly the
corresponding option, the token never appears, and every emitted pair is
one of the four optional fields with a non-null value. -/
theorem serializeModification_fields (r : WaifuModificationRequest) :
    getField (serializeModification r) "password" = r.password.map Json.str
  ∧ getField (serializeModification r) "previousPassword" =
      r.previous_password.map Json.str
  ∧ getField (serializeModification r) "customExpiry" =
      r.custom_expiry.map Json.str
  ∧ getField (serializeModification r) "hideFilename" =
      r.hide_filename.map Json.bool
  ∧ getField (serializeModification r) "token" = none
  ∧ (∀ k v, (k, v) ∈ serializeModification r →
      (k = "password" ∨ k = "previousPassword" ∨ k = "customExpiry" ∨
        k = "hideFilename") ∧ v ≠ Json.null) := by
  obtain ⟨t, p, pp, ce, hf⟩ := r
  cases p <;> cases pp <;> cases ce <;> cases hf <;>
    simp [serializeModification, getField] <;> aesop

/-- Preservation of the bytes-filename invariant along any sequence of
builder calls. -/
theorem applyCalls_bytes_filename (r : WaifuUploadRequest)
    (h : r.bytes.isSome = r.filename.isSome) (calls : List BuilderCall) :
    (applyCalls r calls).bytes.isSome =
      (applyCalls r calls).filename.isSome := by
  induction calls generalizing r with
  | nil => exact h
  | cons c rest ih => exact ih _ (by cases c <;> simp [applyCall, h])

/-! Claim theorems. -/

/-- Claim C1, counterexample: a JSON object carrying `token`,
`bucketToken` and `files` but no `name` field is dispatched to the
BucketEntry shape, because the AlbumEntry shape also requires `name` and
therefore fails to match, while the BucketEntry shape ignores the extra
`bucketToken` field. -/
theorem dispatch_token_bucketToken_files_is_bucket :
    deApiResponse (Json.obj [("token", Json.str "t"),
      ("bucketToken", Json.str "b"), ("files", Json.arr [])]) =
      some (WaifuApiResponse.WaifuBucketResponse ⟨"t", [], none⟩) := by
  rfl

/-- Claim C1, amended: for every JSON value that matches the AlbumEntry
shape (which requires `token`, `bucketToken`, `name` and `files`), the
dispatcher never classifies it as a BucketEntry, and classifies it as
that AlbumEntry whenever the FileEntry shape, tried first, does not
match. -/
theorem album_tried_before_bucket (j : Json) (a : WaifuAlbumEntry)
    (h : deAlbumEntry j = some a) :
    (∀ b, deApiResponse j ≠
        some (WaifuApiResponse.WaifuBucketResponse b))
  ∧ (deFileEntry j = none →
      deApiResponse j = some (WaifuApiResponse.WaifuAlbumResponse a)) := by
  constructor
  · intro b
    cases hf : deFileEntry j <;> simp [deApiResponse, hf, h]
  · intro hf
    simp [deApiResponse, hf, h]

/-- Claim C1, witness: the amended theorem evaluated on a concrete
album-shaped object. -/
theorem album_tried_before_bucket_witness :
    deApiResponse (Json.obj [("token", Json.str "t"),
      ("bucketToken", Json.str "b"), ("name", Json.str "n"),
      ("files", Json.arr [])]) =
      some (WaifuApiResponse.WaifuAlbumResponse ⟨"t", "b", none, "n", []⟩) :=
  (album_tried_before_bucket _ _ (by rfl)).2 (by rfl)

/-- Claim C2, counterexample: an upload request with two content sources
set (a file path and a url) does not fail at build time; the builder
silently takes the file branch. -/
theorem upload_two_sources_build_succeeds :
    sourceCount (applyCalls WaifuUploadRequest.new
      [.file "a/b.bin", .url "https://example.com/x"]) = 2
  ∧ buildUpload (fun p => if p == "a/b.bin" then some [1, 2] else none)
      (applyCalls WaifuUploadRequest.new
        [.file "a/b.bin", .url "https://example.com/x"]) =
      .ok ⟨API, [("hide_filename", "false"), ("oneTimeDownload", "false")],
        .multipart [.filePart "file" "b.bin" [1, 2]]⟩ := by
  exact ⟨by rfl, by rfl⟩

/-- Claim C2, amended: with exactly one content source set the builder
produces the body prescribed for that source (multipart with a `file`
part and optional `password` text part for a local file or raw bytes,
form-encoded `url` plus optional `password` for a remote url), and with
zero sources it fails locally, before any transport call, with the build
error; with more than one source set it does not fail but builds the
encoding of the highest-priority source (file over url over bytes). -/
theorem upload_build_amended (fs : String → Option (List Nat))
    (r : WaifuUploadRequest) :
    (r.file = none → r.url = none → r.bytes = none →
      buildUpload fs r = .error "need either a file, url, or stream")
  ∧ (∀ f content, r.file = some f → r.url = none → r.bytes = none →
      fs f = some content →
      buildUpload fs r = .ok ⟨uploadPath r, uploadQuery r,
        .multipart (withPasswordPart r.password
          [.filePart "file" (fileNameOfPath f) content])⟩)
  ∧ (∀ u, r.file = none → r.url = some u → r.bytes = none →
      buildUpload fs r = .ok ⟨uploadPath r, uploadQuery r,
        .form (urlFormFields u r.password)⟩)
  ∧ (∀ raw fn, r.file = none → r.url = none → r.bytes = some raw →
      r.filename = some fn →
      buildUpload fs r = .ok ⟨uploadPath r, uploadQuery r,
        .multipart (withPasswordPart r.password [.filePart "file" fn raw])⟩)
  ∧ (∀ f content, r.file = some f → fs f = some content →
      buildUpload fs r = .ok ⟨uploadPath r, uploadQuery r,
        .multipart (withPasswordPart r.password
          [.filePart "file" (fileNameOfPath f) content])⟩)
  ∧ (∀ u, r.file = none → r.url = some u →
      buildUpload fs r = .ok ⟨uploadPath r, uploadQuery r,
        .form (urlFormFields u r.password)⟩) := by
  refine ⟨?_, ?_, ?_, ?_, ?_, ?_⟩
  · intro h1 h2 h3
    simp [buildUpload, h1, h2, h3]
  · intro f content h1 h2 h3 h4
    simp [buildUpload, h1, h2, h3, h4]
  · intro u h1 h2 h3
    simp [buildUpload, h1, h2, h3]
  · intro raw fn h1 h2 h3 h4
    simp [buildUpload, h1, h2, h3, h4]
  · intro f content h1 h2
    simp [buildUpload, h1, h2]
  · intro u h1 h2
    simp [buildUpload, h1, h2]

/-- Claim C2, witness: the amended theorem evaluated on a url-only
request. -/
theorem upload_build_amended_witness :
    buildUpload (fun _ => none)
      (applyCalls WaifuUploadRequest.new [.url "https://example.com/x"]) =
      .ok ⟨API, [("hide_filename", "false"), ("oneTimeDownload", "false")],
        .form [("url", "https://example.com/x")]⟩ :=
  (upload_build_amended (fun _ => none)
      (applyCalls WaifuUploadRequest.new [.url "https://example.com/x"])).2.2.1
    "https://example.com/x" (by rfl) (by rfl) (by rfl)

/-- Claim C3, counterexample: `parse_response`, the shared response
dispatch of `upload_file`, `file_info` and `update_file`, hits
`unreachable!` on a structurally valid but contextually illegal variant
such as a BucketEntry, i.e. it fails unrecoverably instead of reporting a
protocol-violation error. -/
theorem parse_response_panics_on_bucket :
    parse_response (WaifuApiResponse.WaifuBucketResponse ⟨"t", [], none⟩) =
      ParseOutcome.panic := by
  rfl

/-- Claim C3, amended: `parse_response` returns the file entry for a
FileEntry variant and propagates a service error, but on every other
variant it fails unrecoverably with a panic rather than reporting a
protocol-violation error; the endpoints with inline matches, modelled by
`createBucketDispatch`, do report an unexpected-response error for a
contextually illegal non-error variant. -/
theorem parse_response_behavior (resp : WaifuApiResponse) :
    (∀ e, parse_response resp = .ok e ↔
      resp = WaifuApiResponse.WaifuFileResponse e)
  ∧ (∀ er, parse_response resp = .err er ↔
      resp = WaifuApiResponse.WaifuError er)
  ∧ ((∀ e, resp ≠ WaifuApiResponse.WaifuFileResponse e) →
      (∀ er, resp ≠ WaifuApiResponse.WaifuError er) →
      parse_response resp = ParseOutcome.panic)
  ∧ ((∀ b, resp ≠ WaifuApiResponse.WaifuBucketResponse b) →
      (∀ er, resp ≠ WaifuApiResponse.WaifuError er) →
      createBucketDispatch resp = EndpointOutcome.unexpectedResponse) := by
  cases resp <;> simp [parse_response, createBucketDispatch]

/-- Claim C3, witness: the amended theorem evaluated on the bare-boolean
delete variant. -/
theorem parse_response_behavior_witness :
    parse_response (WaifuApiResponse.Delete true) = ParseOutcome.panic :=
  (parse_response_behavior (WaifuApiResponse.Delete true)).2.2.1
    (by simp) (by simp)

/-- Claim C4: the serialized body of a modification request contains
exactly the optional fields that were set and no others, unset fields are
absent rather than null, the token is never in the body, and a request
with only hide_filename true set serializes to the single pair
hideFilename / true. -/
theorem modification_serialization_exact (r : WaifuModificationRequest) :
    getField (serializeModification r) "password" = r.password.map Json.str
  ∧ getField (serializeModification r) "previousPassword" =
      r.previous_password.map Json.str
  ∧ getField (serializeModification r) "customExpiry" =
      r.custom_expiry.map Json.str
  ∧ getField (serializeModification r) "hideFilename" =
      r.hide_filename.map Json.bool
  ∧ getField (serializeModification r) "token" = none
  ∧ (∀ k v, (k, v) ∈ serializeModification r →
      (k = "password" ∨ k = "previousPassword" ∨ k = "customExpiry" ∨
        k = "hideFilename") ∧ v ≠ Json.null)
  ∧ serializeModification (applyModCall (WaifuModificationRequest.new "tok")
      (.hide_filename true)) = [("hideFilename", Json.bool true)] :=
  ⟨(serializeModification_fields r).1,
   (serializeModification_fields r).2.1,
   (serializeModification_fields r).2.2.1,
   (serializeModification_fields r).2.2.2.1,
   (serializeModification_fields r).2.2.2.2.1,
   (serializeModification_fields r).2.2.2.2.2,
   by rfl⟩

/-- Claim C4, witness: the theorem evaluated on the concrete request that
only sets hide_filename true. -/
theorem modification_serialization_exact_witness :
    getField (serializeModification (applyModCall
      (WaifuModificationRequest.new "tok") (.hide_filename true)))
      "hideFilename" = some (Json.bool true) ∧
    Json.bool true ≠ Json.null :=
  ⟨(modification_serialization_exact (applyModCall
      (WaifuModificationRequest.new "tok") (.hide_filename true))).2.2.2.1,
   (modification_serialization_exact (applyModCall
      (WaifuModificationRequest.new "tok") (.hide_filename true))).2.2.2.2.2.1
     "hideFilename" (Json.bool true) (by simp [serializeModification,
       applyModCall, WaifuModificationRequest.new]) |>.2⟩

/-- Claim C5: a download that sees HTTP status 403 fails with the
password-required outcome when no password was supplied and with the
password-incorrect outcome when one was; the two outcomes are distinct,
and the 403 result never depends on the response body. -/
theorem download_403_password_split :
    (∀ body : Json, downloadDispatch 403 none body = .passwordRequired)
  ∧ (∀ (pw : String) (body : Json),
      downloadDispatch 403 (some pw) body = .passwordIncorrect)
  ∧ DownloadOutcome.passwordRequired ≠ DownloadOutcome.passwordIncorrect
  ∧ (∀ (pw : Option String) (b1 b2 : Json),
      downloadDispatch 403 pw b1 = downloadDispatch 403 pw b2) := by
  refine ⟨fun body => by rfl, fun pw body => by rfl, by simp, ?_⟩
  intro pw b1 b2
  cases pw <;> rfl

/-- Claim C5, witness: the split evaluated on concrete bodies. -/
theorem download_403_password_split_witness :
    downloadDispatch 403 none Json.null = DownloadOutcome.passwordRequired ∧
    downloadDispatch 403 (some "pw") Json.null =
      DownloadOutcome.passwordIncorrect :=
  ⟨download_403_password_split.1 Json.null,
   download_403_password_split.2.1 "pw" Json.null⟩

/-- Claim C6: every successfully rendered upload call carries the
hide-filename and one-time-download query parameters, with the request
values, defaulting to false on a fresh request; the expires parameter is
present exactly when an expiry was set; and the path is scoped with the
bucket token exactly when one is present. -/
theorem upload_query_and_path (fs : String → Option (List Nat))
    (r : WaifuUploadRequest) (out : RenderedUpload)
    (h : buildUpload fs r = .ok out) :
    ("hide_filename", boolStr r.hide_filename) ∈ out.query
  ∧ ("oneTimeDownload", boolStr r.one_time_download) ∈ out.query
  ∧ (∀ e, r.expires = some e → ("expires", e) ∈ out.query)
  ∧ (r.expires = none → ∀ v, ("expires", v) ∉ out.query)
  ∧ (∀ b, r.bucket = some b → out.path = API ++ "/" ++ b)
  ∧ (r.bucket = none → out.path = API)
  ∧ WaifuUploadRequest.new.hide_filename = false
  ∧ WaifuUploadRequest.new.one_time_download = false := by
  obtain ⟨hpath, hquery⟩ := buildUpload_ok_shape fs r out h
  refine ⟨?_, ?_, ?_, ?_, ?_, ?_, rfl, rfl⟩
  · rw [hquery]; simp [uploadQuery]
  · rw [hquery]; simp [uploadQuery]
  · intro e he
    rw [hquery]
    simp [uploadQuery, he]
  · intro he v
    rw [hquery]
    simp [uploadQuery, he]
  · intro b hb
    rw [hpath]
    simp [uploadPath, hb]
  · intro hb
    rw [hpath]
    simp [uploadPath, hb]

/-- Claim C6, witness: the theorem evaluated on a concrete url upload
with a bucket token and an expiry set. -/
theorem upload_query_and_path_witness :
    ("expires", "1h") ∈
      ([("hide_filename", "false"), ("oneTimeDownload", "false"),
        ("expires", "1h")] : List (String × String)) :=
  (upload_query_and_path (fun _ => none)
      (applyCalls WaifuUploadRequest.new
        [.url "https://example.com/x", .bucket "B", .expires "1h"])
      ⟨API ++ "/" ++ "B",
        [("hide_filename", "false"), ("oneTimeDownload", "false"),
          ("expires", "1h")],
        .form [("url", "https://example.com/x")]⟩
      (by rfl)).2.2.1 "1h" (by rfl)

/-- Claim C7, counterexample: two wire names are not the camelCase names
the claim lists: the body of get_bucket uses the snake_case key
bucket_token, and the upload query uses the snake_case key hide_filename
rather than hideFilename. -/
theorem wire_names_counterexample :
    getBucketBody "tok" = [("bucket_token", Json.str "tok")]
  ∧ getField (getBucketBody "tok") "bucketToken" = none
  ∧ (uploadQuery WaifuUploadRequest.new).map Prod.fst =
      ["hide_filename", "oneTimeDownload"] := by
  exact ⟨by rfl, by rfl, by rfl⟩

/-- Claim C7, amended: the wire names are preserved exactly as they
appear in the source on every operation: the modification body uses the
camelCase keys hideFilename, previousPassword and customExpiry, album
association bodies use fileTokens, the delete-album query uses
deleteFiles, and the upload query uses the camelCase oneTimeDownload; the
two exceptions to the camelCase list are the upload query key
hide_filename and the get_bucket body key bucket_token, which stay
snake_case on the wire. -/
theorem wire_names_amended (r : WaifuModificationRequest)
    (s : WaifuUploadRequest) (tok : String) (fileTokens : List String)
    (df : Bool) :
    getField (serializeModification r) "hideFilename" =
      r.hide_filename.map Json.bool
  ∧ getField (serializeModification r) "previousPassword" =
      r.previous_password.map Json.str
  ∧ getField (serializeModification r) "customExpiry" =
      r.custom_expiry.map Json.str
  ∧ (uploadQuery s).map Prod.fst =
      ["hide_filename", "oneTimeDownload"] ++
        (if s.expires.isSome then ["expires"] else [])
  ∧ (associateBody fileTokens).map Prod.fst = ["fileTokens"]
  ∧ deleteAlbumQuery df = [("deleteFiles", boolStr df)]
  ∧ getBucketBody tok = [("bucket_token", Json.str tok)] := by
  refine ⟨(serializeModification_fields r).2.2.2.1,
    (serializeModification_fields r).2.1,
    (serializeModification_fields r).2.2.1, ?_, by rfl, by rfl, by rfl⟩
  cases he : s.expires <;> simp [uploadQuery, he]

/-- Claim C7, witness: the amended wire-name theorem evaluated on
concrete arguments. -/
theorem wire_names_amended_witness :
    getField (serializeModification (applyModCall
      (WaifuModificationRequest.new "tok") (.custom_expiry "5m")))
      "customExpiry" = some (Json.str "5m") ∧
    deleteAlbumQuery true = [("deleteFiles", "true")] :=
  ⟨(wire_names_amended (applyModCall (WaifuModificationRequest.new "tok")
      (.custom_expiry "5m")) WaifuUploadRequest.new "tok" [] true).2.2.1,
   (wire_names_amended (applyModCall (WaifuModificationRequest.new "tok")
      (.custom_expiry "5m")) WaifuUploadRequest.new "tok" [] true).2.2.2.2.2.1⟩

/-- Claim C8, counterexample: a JSON object that carries `name`,
`message` and `status` and additionally `success` and `description` is
dispatched to the GenericMessage shape, which is tried before the error
shape, so it does not resolve to the service-error result. -/
theorem error_envelope_counterexample :
    deWaifuError (Json.obj [("name", Json.str "x"),
      ("message", Json.str "y"), ("status", Json.num 404),
      ("success", Json.bool true), ("description", Json.str "d")]) =
      some ⟨"x", "y", 404⟩
  ∧ deApiResponse (Json.obj [("name", Json.str "x"),
      ("message", Json.str "y"), ("status", Json.num 404),
      ("success", Json.bool true), ("description", Json.str "d")]) =
      some (WaifuApiResponse.WaifuGenericResponse ⟨true, "d"⟩) := by
  exact ⟨by rfl, by rfl⟩

/-- Claim C8, amended: a JSON object carrying a string `name`, a string
`message` and a 16-bit numeric `status`, and matching none of the shapes
tried earlier (file, album, bucket, generic), resolves to the
service-error result with all three fields preserved exactly as
received. -/
theorem error_envelope_amended (fields : List (String × Json))
    (n m : String) (s : Int)
    (hn : getField fields "name" = some (Json.str n))
    (hm : getField fields "message" = some (Json.str m))
    (hs : getField fields "status" = some (Json.num s))
    (h0 : 0 ≤ s) (h1 : s < 65536)
    (hfile : deFileEntry (Json.obj fields) = none)
    (halbum : deAlbumEntry (Json.obj fields) = none)
    (hbucket : deBucketEntry (Json.obj fields) = none)
    (hgeneric : deGenericMessage (Json.obj fields) = none) :
    deApiResponse (Json.obj fields) =
      some (WaifuApiResponse.WaifuError ⟨n, m, s.toNat⟩) := by
  have herr : deWaifuError (Json.obj fields) = some ⟨n, m, s.toNat⟩ := by
    simp [deWaifuError, reqField, hn, hm, hs, deStr, deU16, h0, h1]
  simp [deApiResponse, hfile, halbum, hbucket, hgeneric, herr]

/-- Claim C8, witness: the amended theorem evaluated on a concrete
404 error envelope, showing the status round-trips. -/
theorem error_envelope_amended_witness :
    deApiResponse (Json.obj [("name", Json.str "NotFoundException"),
      ("message", Json.str "resource missing"),
      ("status", Json.num 404)]) =
      some (WaifuApiResponse.WaifuError
        ⟨"NotFoundException", "resource missing", 404⟩) :=
  error_envelope_amended _ "NotFoundException" "resource missing" 404
    (by rfl) (by rfl) (by rfl) (by decide) (by decide)
    (by rfl) (by rfl) (by rfl) (by rfl)

/-- Claim C9: when more than one content source is set, `upload_file`
deterministically selects one by the fixed priority file over url over
bytes — the file branch whenever a file path is set (and readable), the
url branch only when no file is set, the bytes branch only when neither
file nor url is set — and builds that encoding without reporting an
error. -/
theorem upload_source_priority (fs : String → Option (List Nat))
    (r : WaifuUploadRequest) :
    (∀ f content, r.file = some f → fs f = some content →
      buildUpload fs r = .ok ⟨uploadPath r, uploadQuery r,
        .multipart (withPasswordPart r.password
          [.filePart "file" (fileNameOfPath f) content])⟩)
  ∧ (∀ u, r.file = none → r.url = some u →
      buildUpload fs r = .ok ⟨uploadPath r, uploadQuery r,
        .form (urlFormFields u r.password)⟩)
  ∧ (∀ raw fn, r.file = none → r.url = none → r.bytes = some raw →
      r.filename = some fn →
      buildUpload fs r = .ok ⟨uploadPath r, uploadQuery r,
        .multipart (withPasswordPart r.password
          [.filePart "file" fn raw])⟩) := by
  refine ⟨?_, ?_, ?_⟩
  · intro f content h1 h2
    simp [buildUpload, h1, h2]
  · intro u h1 h2
    simp [buildUpload, h1, h2]
  · intro raw fn h1 h2 h3 h4
    simp [buildUpload, h1, h2, h3, h4]

/-- Claim C9, witness: the priority theorem evaluated on a request with
all three sources set, which takes the file branch. -/
theorem upload_source_priority_witness :
    buildUpload (fun p => if p == "a/b.bin" then some [7] else none)
      (applyCalls WaifuUploadRequest.new
        [.file "a/b.bin", .url "https://example.com/x",
          .bytes [9] "raw.bin"]) =
      .ok ⟨API, [("hide_filename", "false"), ("oneTimeDownload", "false")],
        .multipart [.filePart "file" "b.bin" [7]]⟩ :=
  (upload_source_priority (fun p => if p == "a/b.bin" then some [7] else none)
      (applyCalls WaifuUploadRequest.new
        [.file "a/b.bin", .url "https://example.com/x",
          .bytes [9] "raw.bin"])).1
    "a/b.bin" [7] (by rfl) (by rfl)

/-- Claim C10: after any finite sequence of builder calls starting from
`WaifuUploadRequest.new`, the bytes field is set if and only if the
filename field is set; the bytes call is the only call that touches
either field, and it always sets both. -/
theorem bytes_iff_filename (calls : List BuilderCall) :
    ((applyCalls WaifuUploadRequest.new calls).bytes.isSome =
      (applyCalls WaifuUploadRequest.new calls).filename.isSome)
  ∧ ((applyCalls WaifuUploadRequest.new calls).bytes.isSome = true ↔
      (applyCalls WaifuUploadRequest.new calls).filename.isSome = true)
  ∧ (∀ (r : WaifuUploadRequest) (raw : List Nat) (fn : String),
      (applyCall r (.bytes raw fn)).bytes = some raw ∧
      (applyCall r (.bytes raw fn)).filename = some fn)
  ∧ (∀ (r : WaifuUploadRequest) (p : String),
      (applyCall r (.file p)).bytes = r.bytes ∧
      (applyCall r (.file p)).filename = r.filename)
  ∧ (∀ (r : WaifuUploadRequest) (u : String),
      (applyCall r (.url u)).bytes = r.bytes ∧
      (applyCall r (.url u)).filename = r.filename)
  ∧ (∀ (r : WaifuUploadRequest) (t : String),
      (applyCall r (.bucket t)).bytes = r.bytes ∧
      (applyCall r (.bucket t)).filename = r.filename)
  ∧ (∀ (r : WaifuUploadRequest) (e : String),
      (applyCall r (.expires e)).bytes = r.bytes ∧
      (applyCall r (.expires e)).filename = r.filename)
  ∧ (∀ (r : WaifuUploadRequest) (h : Bool),
      (applyCall r (.hide_filename h)).bytes = r.bytes ∧
      (applyCall r (.hide_filename h)).filename = r.filename)
  ∧ (∀ (r : WaifuUploadRequest) (p : String),
      (applyCall r (.password p)).bytes = r.bytes ∧
      (applyCall r (.password p)).filename = r.filename)
  ∧ (∀ (r : WaifuUploadRequest) (o : Bool),
      (applyCall r (.one_time_download o)).bytes = r.bytes ∧
      (applyCall r (.one_time_download o)).filename = r.filename) := by
  have hinv := applyCalls_bytes_filename WaifuUploadRequest.new rfl calls
  exact ⟨hinv, by rw [hinv], fun r raw fn => ⟨rfl, rfl⟩,
    fun r p => ⟨rfl, rfl⟩, fun r u => ⟨rfl, rfl⟩, fun r t => ⟨rfl, rfl⟩,
    fun r e => ⟨rfl, rfl⟩, fun r h => ⟨rfl, rfl⟩, fun r p => ⟨rfl, rfl⟩,
    fun r o => ⟨rfl, rfl⟩⟩

/-- Claim C10, witness: the invariant evaluated on a concrete call
sequence ending in a bytes call. -/
theorem bytes_iff_filename_witness :
    (applyCalls WaifuUploadRequest.new
      [.file "a", .bytes [1] "f.bin"]).bytes.isSome =
    (applyCalls WaifuUploadRequest.new
      [.file "a", .bytes [1] "f.bin"]).filename.isSome :=
  (bytes_iff_filename [.file "a", .bytes [1] "f.bin"]).1

end WaifuVault
